import Mathlib

/-!
Shallow embedding of the QuickConvertTool conversion core
(`src/core/converter.py`, `src/core/parameterized_converter.py`,
`src/core/registry.py` and the converters under `src/converters/`).

Real values are modelled as rationals (`ℚ`); Python `float` arithmetic on the
table factors is exact for the inputs considered.  Python exceptions are
modelled with `Except ConvError`; each `raise` site of the source is mapped to
the error kind the specification names for it:
  * `ValueError` in `Converter.validate_unit`            ↦ `unsupportedUnit`
  * `ValueError` for voltage ≤ 0 in the battery converter ↦ `invalidParameter`
  * `ValueError` in `CurrencyConverter._get_exchange_rates` ↦ `exchangeRateUnavailable`
  * `ValueError` in `ConverterRegistry.register`          ↦ `duplicateName`
  * `KeyError` in `ConverterRegistry.get_converter`       ↦ `notFound`
  * `KeyError` from a Python `dict[...]` access           ↦ `keyError`
  * the defensive `ValueError`s in the battery unit helpers ↦ `unknownUnit`
-/

inductive ConvError where
  | unsupportedUnit (msg : String)
  | invalidParameter (msg : String)
  | exchangeRateUnavailable (msg : String)
  | duplicateName (msg : String)
  | notFound (msg : String)
  | keyError (msg : String)
  | unknownUnit (msg : String)
deriving DecidableEq, Repr

/-- `Converter.validate_unit` (src/core/converter.py): raises iff the unit is
not in the converter's unit list; the message enumerates the supported units. -/
def validate_unit (cname : String) (units : List String) (unit : String) :
    Except ConvError Unit :=
  if unit ∈ units then .ok ()
  else .error (.unsupportedUnit
    ("Unsupported unit '" ++ unit ++ "' for " ++ cname ++ " converter. " ++
     "Supported units: " ++ String.intercalate ", " units))

/-- The error message produced by `validate_unit` for an unsupported unit. -/
def unsupportedUnitMsg (cname : String) (units : List String) (unit : String) :
    String :=
  "Unsupported unit '" ++ unit ++ "' for " ++ cname ++ " converter. " ++
    "Supported units: " ++ String.intercalate ", " units

/-- `LengthConverter._TO_METERS` (src/converters/length.py). -/
def lengthToMeters : List (String × ℚ) :=
  [("m", 1), ("km", 1000), ("cm", 1/100), ("mm", 1/1000),
   ("mile", 1609344/1000), ("yard", 9144/10000), ("ft", 3048/10000),
   ("inch", 254/10000)]

/-- `LengthConverter.units`. -/
def lengthUnits : List String := lengthToMeters.map Prod.fst

/-- `WeightConverter._TO_KILOGRAMS` (src/converters/weight.py). -/
def weightToKilograms : List (String × ℚ) :=
  [("kg", 1), ("g", 1/1000), ("mg", 1/1000000), ("ton", 1000),
   ("lb", 45359237/100000000), ("oz", 28349523125/1000000000000)]

/-- `WeightConverter.units`. -/
def weightUnits : List String := weightToKilograms.map Prod.fst

/-- `DataUnitConverter._TO_BITS` (src/converters/data_unit.py). -/
def dataToBits : List (String × ℚ) :=
  [("bit", 1), ("byte", 8), ("KB", 8192), ("MB", 8388608),
   ("GB", 8589934592), ("TB", 8796093022208), ("KiB", 8192),
   ("MiB", 8388608), ("GiB", 8589934592), ("TiB", 8796093022208)]

/-- `DataUnitConverter.units`. -/
def dataUnits : List String := dataToBits.map Prod.fst

/-- Factor of a unit to the base unit, as read off a `_TO_X` table. -/
def factorToBase (table : List (String × ℚ)) (unit : String) : ℚ :=
  (table.lookup unit).getD 0

/-- The shared shape of `LengthConverter.convert`, `WeightConverter.convert`
and `DataUnitConverter.convert`: validate both units, identity short-circuit,
then `value * factor(from) / factor(to)` through the base unit. -/
def ratioConvert (cname : String) (table : List (String × ℚ))
    (value : ℚ) (from_unit to_unit : String) : Except ConvError ℚ :=
  match validate_unit cname (table.map Prod.fst) from_unit with
  | .error e => .error e
  | .ok _ =>
    match validate_unit cname (table.map Prod.fst) to_unit with
    | .error e => .error e
    | .ok _ =>
      if from_unit = to_unit then .ok value
      else .ok (value * factorToBase table from_unit / factorToBase table to_unit)

/-- `LengthConverter.convert`. -/
def lengthConvert (value : ℚ) (from_unit to_unit : String) :
    Except ConvError ℚ :=
  ratioConvert "Length" lengthToMeters value from_unit to_unit

/-- `WeightConverter.convert`. -/
def weightConvert (value : ℚ) (from_unit to_unit : String) :
    Except ConvError ℚ :=
  ratioConvert "Weight" weightToKilograms value from_unit to_unit

/-- `DataUnitConverter.convert`. -/
def dataUnitConvert (value : ℚ) (from_unit to_unit : String) :
    Except ConvError ℚ :=
  ratioConvert "数据单位" dataToBits value from_unit to_unit

/-- `TemperatureConverter._UNITS` (src/converters/temperature.py). -/
def temperatureUnits : List String := ["C", "F", "K"]

/-- `TemperatureConverter._to_celsius`. -/
def to_celsius (value : ℚ) (from_unit : String) : Except ConvError ℚ :=
  if from_unit = "C" then .ok value
  else if from_unit = "F" then .ok ((value - 32) * 5 / 9)
  else if from_unit = "K" then .ok (value - 27315/100)
  else .error (.unknownUnit ("Unknown unit: " ++ from_unit))

/-- `TemperatureConverter._from_celsius`. -/
def from_celsius (celsius : ℚ) (to_unit : String) : Except ConvError ℚ :=
  if to_unit = "C" then .ok celsius
  else if to_unit = "F" then .ok (celsius * 9 / 5 + 32)
  else if to_unit = "K" then .ok (celsius + 27315/100)
  else .error (.unknownUnit ("Unknown unit: " ++ to_unit))

/-- `TemperatureConverter.convert`. -/
def temperatureConvert (value : ℚ) (from_unit to_unit : String) :
    Except ConvError ℚ :=
  match validate_unit "温度" temperatureUnits from_unit with
  | .error e => .error e
  | .ok _ =>
    match validate_unit "温度" temperatureUnits to_unit with
    | .error e => .error e
    | .ok _ =>
      if from_unit = to_unit then .ok value
      else
        match to_celsius value from_unit with
        | .error e => .error e
        | .ok celsius => from_celsius celsius to_unit

/-- `BatteryConverter._CHARGE_UNITS` (src/converters/battery.py). -/
def chargeUnits : List String := ["mAh", "Ah"]

/-- `BatteryConverter._ENERGY_UNITS`. -/
def energyUnits : List String := ["Wh", "kWh"]

/-- `BatteryConverter.units`. -/
def batteryUnits : List String := chargeUnits ++ energyUnits

/-- `BatteryConverter._to_mah`. -/
def to_mah (value : ℚ) (unit : String) : Except ConvError ℚ :=
  if unit = "mAh" then .ok value
  else if unit = "Ah" then .ok (value * 1000)
  else .error (.unknownUnit ("Unknown charge unit: " ++ unit))

/-- `BatteryConverter._from_mah`. -/
def from_mah (mAh : ℚ) (unit : String) : Except ConvError ℚ :=
  if unit = "mAh" then .ok mAh
  else if unit = "Ah" then .ok (mAh / 1000)
  else .error (.unknownUnit ("Unknown charge unit: " ++ unit))

/-- `BatteryConverter._to_ah`. -/
def to_ah (value : ℚ) (unit : String) : Except ConvError ℚ :=
  if unit = "Ah" then .ok value
  else if unit = "mAh" then .ok (value / 1000)
  else .error (.unknownUnit ("Unknown charge unit: " ++ unit))

/-- `BatteryConverter._from_ah`. -/
def from_ah (ah : ℚ) (unit : String) : Except ConvError ℚ :=
  if unit = "Ah" then .ok ah
  else if unit = "mAh" then .ok (ah * 1000)
  else .error (.unknownUnit ("Unknown charge unit: " ++ unit))

/-- `BatteryConverter._to_wh`. -/
def to_wh (value : ℚ) (unit : String) : Except ConvError ℚ :=
  if unit = "Wh" then .ok value
  else if unit = "kWh" then .ok (value * 1000)
  else .error (.unknownUnit ("Unknown energy unit: " ++ unit))

/-- `BatteryConverter._from_wh`. -/
def from_wh (wh : ℚ) (unit : String) : Except ConvError ℚ :=
  if unit = "Wh" then .ok wh
  else if unit = "kWh" then .ok (wh / 1000)
  else .error (.unknownUnit ("Unknown energy unit: " ++ unit))

/-- `BatteryConverter._convert_charge`. -/
def convert_charge (value : ℚ) (from_unit to_unit : String) :
    Except ConvError ℚ :=
  match to_mah value from_unit with
  | .error e => .error e
  | .ok m => from_mah m to_unit

/-- `BatteryConverter._convert_energy`. -/
def convert_energy (value : ℚ) (from_unit to_unit : String) :
    Except ConvError ℚ :=
  match to_wh value from_unit with
  | .error e => .error e
  | .ok w => from_wh w to_unit

/-- `BatteryConverter._convert_charge_to_energy`. -/
def convert_charge_to_energy (value : ℚ) (from_unit to_unit : String)
    (voltage : ℚ) : Except ConvError ℚ :=
  match to_ah value from_unit with
  | .error e => .error e
  | .ok ah => from_wh (ah * voltage) to_unit

/-- `BatteryConverter._convert_energy_to_charge`. -/
def convert_energy_to_charge (value : ℚ) (from_unit to_unit : String)
    (voltage : ℚ) : Except ConvError ℚ :=
  match to_wh value from_unit with
  | .error e => .error e
  | .ok wh => from_ah (wh / voltage) to_unit

/-- `BatteryConverter._convert_with_params`: validates the voltage, then
classifies the two units as charge or energy and dispatches. -/
def convert_with_params (value : ℚ) (from_unit to_unit : String)
    (voltage : ℚ) : Except ConvError ℚ :=
  if voltage ≤ 0 then
    .error (.invalidParameter
      ("Voltage must be positive, got " ++ toString voltage ++ "V"))
  else if from_unit ∈ chargeUnits then
    if to_unit ∈ chargeUnits then convert_charge value from_unit to_unit
    else convert_charge_to_energy value from_unit to_unit voltage
  else
    if to_unit ∈ chargeUnits then
      convert_energy_to_charge value from_unit to_unit voltage
    else convert_energy value from_unit to_unit

/-- `ParameterizedConverter.convert` instantiated at `BatteryConverter`:
validate both units, identity short-circuit, then `_convert_with_params`.
The default voltage `3.7` mirrors the Python keyword default. -/
def batteryConvert (value : ℚ) (from_unit to_unit : String)
    (voltage : ℚ := 3.7) : Except ConvError ℚ :=
  match validate_unit "Battery" batteryUnits from_unit with
  | .error e => .error e
  | .ok _ =>
    match validate_unit "Battery" batteryUnits to_unit with
    | .error e => .error e
    | .ok _ =>
      if from_unit = to_unit then .ok value
      else convert_with_params value from_unit to_unit voltage

/-- An entry of the registry: a converter reduced to its `name` plus an
opaque identity (`cid`) standing for the instance. -/
structure RegConverter where
  cname : String
  cid : Nat
deriving DecidableEq, Repr

/-- `ConverterRegistry.register` (src/core/registry.py): the `_converters`
dict is modelled as a list of entries with unique names, insertion order
preserved. -/
def registryRegister (reg : List RegConverter) (c : RegConverter) :
    Except ConvError (List RegConverter) :=
  if (reg.find? (fun e => e.cname == c.cname)).isSome then
    .error (.duplicateName ("Converter '" ++ c.cname ++ "' is already registered"))
  else .ok (reg ++ [c])

/-- `ConverterRegistry.get_converter`. -/
def registryGetConverter (reg : List RegConverter) (name : String) :
    Except ConvError RegConverter :=
  match reg.find? (fun e => e.cname == name) with
  | some c => .ok c
  | none => .error (.notFound ("No converter named '" ++ name ++ "' is registered"))

/-- `ConverterRegistry.has_converter`. -/
def registryHasConverter (reg : List RegConverter) (name : String) : Bool :=
  (reg.find? (fun e => e.cname == name)).isSome

/-- `CurrencyConverter._CURRENCIES` (src/converters/currency.py):
currency code paired with its display name. -/
def currencyConfig : List (String × String) :=
  [("CNY", "人民币"), ("USD", "美元"), ("EUR", "欧元"), ("JPY", "日元"),
   ("GBP", "英镑"), ("KRW", "韩元"), ("HKD", "港币"), ("AUD", "澳元"),
   ("CAD", "加元"), ("SGD", "新币")]

/-- The configured currency codes, `_CURRENCIES.keys()`. -/
def currencyCodes : List String := currencyConfig.map Prod.fst

/-- `CurrencyConverter.units`: composite labels `code(display-name)`. -/
def currencyUnits : List String :=
  currencyConfig.map (fun p => p.1 ++ "(" ++ p.2 ++ ")")

/-- `CurrencyConverter._BASE_CURRENCY`. -/
def BASE_CURRENCY : String := "USD"

/-- `CurrencyConverter._CACHE_DURATION` (seconds). -/
def CACHE_DURATION : ℚ := 600

/-- The class-level shared cache of `CurrencyConverter`:
`_cached_rates` and `_cache_timestamp`. -/
structure CurrencyCache where
  cached_rates : Option (List (String × ℚ))
  cache_timestamp : Option ℚ
deriving DecidableEq, Repr

/-- What the one HTTP GET of `_get_exchange_rates` can come back as.
`payload` is a parsed JSON body: the `result` field and the `rates` mapping;
the other constructors are the `requests` exceptions and a malformed body. -/
inductive FetchResponse where
  | timeout
  | connectionError
  | requestError (msg : String)
  | malformed (msg : String)
  | payload (result : String) (rates : List (String × ℚ))
deriving DecidableEq, Repr

/-- The cache-validity test of `_get_exchange_rates`: both fields set and
`now - timestamp < _CACHE_DURATION`. -/
def cacheHit (st : CurrencyCache) (now : ℚ) : Bool :=
  match st.cached_rates, st.cache_timestamp with
  | some _, some ts => decide (now - ts < CACHE_DURATION)
  | _, _ => false

/-- The table written to the cache on a successful fetch:
`{code: float(rates[code]) for code in _CURRENCIES}`. -/
def buildRates (rates : List (String × ℚ)) : List (String × ℚ) :=
  currencyCodes.map (fun c => (c, (rates.lookup c).getD 0))

/-- The fetch-and-parse path of `_get_exchange_rates` (the `try` block with
its `except` clauses).  Returns the result together with the cache state
after the call; only a fully validated response writes the cache.  The two
`raise ValueError` sites inside the `try` block are re-wrapped by the
`except (KeyError, ValueError, TypeError)` clause, hence the
`"解析汇率数据失败: "` prefix on their messages. -/
def fetchRates (st : CurrencyCache) (now : ℚ) (resp : FetchResponse) :
    Except ConvError (List (String × ℚ)) × CurrencyCache :=
  match resp with
  | .timeout =>
    (.error (.exchangeRateUnavailable "网络请求超时，请检查网络连接"), st)
  | .connectionError =>
    (.error (.exchangeRateUnavailable "无法连接到汇率服务器，请检查网络连接"), st)
  | .requestError m =>
    (.error (.exchangeRateUnavailable ("获取汇率失败: " ++ m)), st)
  | .malformed m =>
    (.error (.exchangeRateUnavailable ("解析汇率数据失败: " ++ m)), st)
  | .payload result rates =>
    if result ≠ "success" then
      (.error (.exchangeRateUnavailable "解析汇率数据失败: API返回状态异常"), st)
    else
      let missing := currencyCodes.filter (fun c => (rates.lookup c).isNone)
      if missing ≠ [] then
        (.error (.exchangeRateUnavailable
          ("解析汇率数据失败: API响应中未找到以下货币汇率: " ++
           String.intercalate ", " missing)), st)
      else
        let newRates := buildRates rates
        (.ok newRates, ⟨some newRates, some now⟩)

/-- `CurrencyConverter._get_exchange_rates`, with the wall clock and the
network response passed in explicitly.  The third component records whether
a network fetch was issued. -/
def getExchangeRates (st : CurrencyCache) (now : ℚ) (resp : FetchResponse) :
    Except ConvError (List (String × ℚ)) × CurrencyCache × Bool :=
  match st.cached_rates, st.cache_timestamp with
  | some rates, some ts =>
    if now - ts < CACHE_DURATION then (.ok rates, st, false)
    else ((fetchRates st now resp).1, (fetchRates st now resp).2, true)
  | _, _ => ((fetchRates st now resp).1, (fetchRates st now resp).2, true)

/-- `CurrencyConverter._parse_unit`: `unit.split("(")[0]`, the label up to
the first opening parenthesis. -/
def parse_unit (unit : String) : String :=
  ⟨unit.data.takeWhile (fun ch => ch ≠ '(')⟩

/-- A Python `dict[key]` access on a rate table: `KeyError` when absent. -/
def dictGet (d : List (String × ℚ)) (k : String) : Except ConvError ℚ :=
  match d.lookup k with
  | some v => .ok v
  | none => .error (.keyError k)

/-- `CurrencyConverter.convert`: validate, identity short-circuit, then the
two-hop conversion through the base currency.  Returns the result together
with the cache state after the call. -/
def currencyConvert (st : CurrencyCache) (now : ℚ) (resp : FetchResponse)
    (value : ℚ) (from_unit to_unit : String) :
    Except ConvError ℚ × CurrencyCache :=
  match validate_unit "货币" currencyUnits from_unit with
  | .error e => (.error e, st)
  | .ok _ =>
  match validate_unit "货币" currencyUnits to_unit with
  | .error e => (.error e, st)
  | .ok _ =>
  if from_unit = to_unit then (.ok value, st)
  else
    let from_currency := parse_unit from_unit
    let to_currency := parse_unit to_unit
    match getExchangeRates st now resp with
    | (.error e, st', _) => (.error e, st')
    | (.ok rates, st', _) =>
      match (if from_currency = BASE_CURRENCY then .ok value
             else match dictGet rates from_currency with
                  | .error e => .error e
                  | .ok r => .ok (value / r) : Except ConvError ℚ) with
      | .error e => (.error e, st')
      | .ok value_in_usd =>
        if to_currency = BASE_CURRENCY then (.ok value_in_usd, st')
        else
          match dictGet rates to_currency with
          | .error e => (.error e, st')
          | .ok r => (.ok (value_in_usd * r), st')

/-- The responses on which the fetch path of `_get_exchange_rates` fails:
every transport error or malformed body, and any parsed body whose `result`
field is not `"success"` or whose `rates` miss a configured currency code. -/
def fetchFails (resp : FetchResponse) : Bool :=
  match resp with
  | .payload result rates =>
    result != "success" ||
      decide (currencyCodes.filter (fun c => (rates.lookup c).isNone) ≠ [])
  | _ => true

/-- The cache invariant of C10: whenever the shared rate table is populated,
its key list is exactly the configured currency-code list. -/
def cacheKeysInv (st : CurrencyCache) : Prop :=
  ∀ r, st.cached_rates = some r → r.map Prod.fst = currencyCodes


/-! ## Helper lemmas -/

theorem ratioConvert_eq (cname : String) (table : List (String × ℚ))
    (v : ℚ) (f t : String) (hf : f ∈ table.map Prod.fst)
    (ht : t ∈ table.map Prod.fst) (hne : f ≠ t) :
    ratioConvert cname table v f t =
      .ok (v * factorToBase table f / factorToBase table t) := by
  simp [ratioConvert, validate_unit, hf, ht, hne]

theorem ratioConvert_id (cname : String) (table : List (String × ℚ))
    (v : ℚ) (u : String) (hu : u ∈ table.map Prod.fst) :
    ratioConvert cname table v u u = .ok v := by
  simp [ratioConvert, validate_unit, hu]

theorem ratioConvert_unsupported (cname : String) (table : List (String × ℚ))
    (v : ℚ) (f t : String)
    (h : f ∉ table.map Prod.fst ∨ t ∉ table.map Prod.fst) :
    ∃ m, ratioConvert cname table v f t = .error (.unsupportedUnit m) := by
  by_cases hf : f ∈ table.map Prod.fst
  · have ht : t ∉ table.map Prod.fst := by
      rcases h with h | h
      · exact absurd hf h
      · exact h
    exact ⟨unsupportedUnitMsg cname (table.map Prod.fst) t,
      by simp [ratioConvert, validate_unit, unsupportedUnitMsg, hf, ht]⟩
  · exact ⟨unsupportedUnitMsg cname (table.map Prod.fst) f,
      by simp [ratioConvert, validate_unit, unsupportedUnitMsg, hf]⟩

/-! ## Claims -/

/-- C5: for the ratio-table converters (length, weight, data size) and any
distinct pair of supported units, `convert` returns
`value * factorToBase(from) / factorToBase(to)`; in the data-size table KB
and KiB share the same factor to bits, so `convert(1,"KB","byte") = 1024`
and `convert(1,"KB","KiB") = 1`. -/
theorem ratio_table_conversion :
    (∀ (v : ℚ) (f t : String), f ∈ lengthUnits → t ∈ lengthUnits → f ≠ t →
      lengthConvert v f t =
        .ok (v * factorToBase lengthToMeters f / factorToBase lengthToMeters t)) ∧
    (∀ (v : ℚ) (f t : String), f ∈ weightUnits → t ∈ weightUnits → f ≠ t →
      weightConvert v f t =
        .ok (v * factorToBase weightToKilograms f / factorToBase weightToKilograms t)) ∧
    (∀ (v : ℚ) (f t : String), f ∈ dataUnits → t ∈ dataUnits → f ≠ t →
      dataUnitConvert v f t =
        .ok (v * factorToBase dataToBits f / factorToBase dataToBits t)) ∧
    factorToBase dataToBits "KB" = factorToBase dataToBits "KiB" ∧
    dataUnitConvert 1 "KB" "byte" = .ok 1024 ∧
    dataUnitConvert 1 "KB" "KiB" = .ok 1 := by
  refine ⟨?_, ?_, ?_, ?_, ?_, ?_⟩
  · exact fun v f t hf ht hne => ratioConvert_eq _ _ v f t hf ht hne
  · exact fun v f t hf ht hne => ratioConvert_eq _ _ v f t hf ht hne
  · exact fun v f t hf ht hne => ratioConvert_eq _ _ v f t hf ht hne
  · rfl
  · calc dataUnitConvert 1 "KB" "byte"
        = .ok (1 * factorToBase dataToBits "KB" / factorToBase dataToBits "byte") :=
          ratioConvert_eq _ _ _ _ _ (by decide) (by decide) (by decide)
      _ = .ok 1024 := by
          simp [factorToBase, dataToBits, List.lookup]
          norm_num
  · calc dataUnitConvert 1 "KB" "KiB"
        = .ok (1 * factorToBase dataToBits "KB" / factorToBase dataToBits "KiB") :=
          ratioConvert_eq _ _ _ _ _ (by decide) (by decide) (by decide)
      _ = .ok 1 := by
          simp [factorToBase, dataToBits, List.lookup]

/-- Witness for C5 at concrete inputs. -/
theorem ratio_table_conversion_witness :
    ("KB" ∈ dataUnits ∧ "byte" ∈ dataUnits ∧ "KB" ≠ "byte") ∧
    dataUnitConvert 2 "KB" "byte" =
      .ok (2 * factorToBase dataToBits "KB" / factorToBase dataToBits "byte") :=
  ⟨by decide,
   ratio_table_conversion.2.2.1 2 "KB" "byte" (by decide) (by decide) (by decide)⟩

/-- C6: for every converter and every supported unit `u`,
`convert(v, u, u) = v` for any value `v` — regardless of the voltage
parameter for the battery converter and regardless of the cache state and
network response for the currency converter (whose cache the call leaves
untouched): the short-circuit runs after unit validation and before any
formula, parameter validation, or rate lookup. -/
theorem identity_conversion :
    (∀ (v : ℚ) (u : String), u ∈ lengthUnits → lengthConvert v u u = .ok v) ∧
    (∀ (v : ℚ) (u : String), u ∈ weightUnits → weightConvert v u u = .ok v) ∧
    (∀ (v : ℚ) (u : String), u ∈ dataUnits → dataUnitConvert v u u = .ok v) ∧
    (∀ (v : ℚ) (u : String), u ∈ temperatureUnits →
      temperatureConvert v u u = .ok v) ∧
    (∀ (v voltage : ℚ) (u : String), u ∈ batteryUnits →
      batteryConvert v u u voltage = .ok v) ∧
    (∀ (st : CurrencyCache) (now : ℚ) (resp : FetchResponse) (v : ℚ)
        (u : String), u ∈ currencyUnits →
      currencyConvert st now resp v u u = (.ok v, st)) := by
  refine ⟨?_, ?_, ?_, ?_, ?_, ?_⟩
  · exact fun v u hu => ratioConvert_id _ _ v u hu
  · exact fun v u hu => ratioConvert_id _ _ v u hu
  · exact fun v u hu => ratioConvert_id _ _ v u hu
  · intro v u hu
    simp [temperatureConvert, validate_unit, hu]
  · intro v voltage u hu
    simp [batteryConvert, validate_unit, hu]
  · intro st now resp v u hu
    simp [currencyConvert, validate_unit, hu]

/-- Witness for C6 at concrete inputs. -/
theorem identity_conversion_witness :
    ("kWh" ∈ batteryUnits) ∧ batteryConvert 42 "kWh" "kWh" (-1) = .ok 42 :=
  ⟨by decide, identity_conversion.2.2.2.2.1 42 (-1) "kWh" (by decide)⟩

/-- C7: `validate_unit` succeeds exactly when the unit is supported and
otherwise raises `UnsupportedUnit` with a message that enumerates all
supported units; every converter's `convert` raises `UnsupportedUnit` when
either position holds an unsupported unit. -/
theorem unit_validation :
    (∀ (cname : String) (units : List String) (u : String),
      validate_unit cname units u = .ok () ↔ u ∈ units) ∧
    (∀ (cname : String) (units : List String) (u : String), u ∉ units →
      validate_unit cname units u =
        .error (.unsupportedUnit (unsupportedUnitMsg cname units u))) ∧
    (∀ (v : ℚ) (f t : String), f ∉ lengthUnits ∨ t ∉ lengthUnits →
      ∃ m, lengthConvert v f t = .error (.unsupportedUnit m)) ∧
    (∀ (v : ℚ) (f t : String), f ∉ weightUnits ∨ t ∉ weightUnits →
      ∃ m, weightConvert v f t = .error (.unsupportedUnit m)) ∧
    (∀ (v : ℚ) (f t : String), f ∉ dataUnits ∨ t ∉ dataUnits →
      ∃ m, dataUnitConvert v f t = .error (.unsupportedUnit m)) ∧
    (∀ (v : ℚ) (f t : String), f ∉ temperatureUnits ∨ t ∉ temperatureUnits →
      ∃ m, temperatureConvert v f t = .error (.unsupportedUnit m)) ∧
    (∀ (v voltage : ℚ) (f t : String), f ∉ batteryUnits ∨ t ∉ batteryUnits →
      ∃ m, batteryConvert v f t voltage = .error (.unsupportedUnit m)) ∧
    (∀ (st : CurrencyCache) (now : ℚ) (resp : FetchResponse) (v : ℚ)
        (f t : String), f ∉ currencyUnits ∨ t ∉ currencyUnits →
      ∃ m, currencyConvert st now resp v f t =
        (.error (.unsupportedUnit m), st)) := by
  refine ⟨?_, ?_, ?_, ?_, ?_, ?_, ?_, ?_⟩
  · intro cname units u
    constructor
    · intro h
      by_contra hu
      simp [validate_unit, hu] at h
    · intro hu
      simp [validate_unit, hu]
  · intro cname units u hu
    simp [validate_unit, unsupportedUnitMsg, hu]
  · exact fun v f t h => ratioConvert_unsupported _ _ v f t h
  · exact fun v f t h => ratioConvert_unsupported _ _ v f t h
  · exact fun v f t h => ratioConvert_unsupported _ _ v f t h
  · intro v f t h
    by_cases hf : f ∈ temperatureUnits
    · have ht : t ∉ temperatureUnits := by
        rcases h with h | h
        · exact absurd hf h
        · exact h
      exact ⟨unsupportedUnitMsg "温度" temperatureUnits t,
        by simp [temperatureConvert, validate_unit, unsupportedUnitMsg, hf, ht]⟩
    · exact ⟨unsupportedUnitMsg "温度" temperatureUnits f,
        by simp [temperatureConvert, validate_unit, unsupportedUnitMsg, hf]⟩
  · intro v voltage f t h
    by_cases hf : f ∈ batteryUnits
    · have ht : t ∉ batteryUnits := by
        rcases h with h | h
        · exact absurd hf h
        · exact h
      exact ⟨unsupportedUnitMsg "Battery" batteryUnits t,
        by simp [batteryConvert, validate_unit, unsupportedUnitMsg, hf, ht]⟩
    · exact ⟨unsupportedUnitMsg "Battery" batteryUnits f,
        by simp [batteryConvert, validate_unit, unsupportedUnitMsg, hf]⟩
  · intro st now resp v f t h
    by_cases hf : f ∈ currencyUnits
    · have ht : t ∉ currencyUnits := by
        rcases h with h | h
        · exact absurd hf h
        · exact h
      exact ⟨unsupportedUnitMsg "货币" currencyUnits t,
        by simp [currencyConvert, validate_unit, unsupportedUnitMsg, hf, ht]⟩
    · exact ⟨unsupportedUnitMsg "货币" currencyUnits f,
        by simp [currencyConvert, validate_unit, unsupportedUnitMsg, hf]⟩

/-- Witness for C7 at concrete inputs. -/
theorem unit_validation_witness :
    ("furlong" ∉ lengthUnits ∨ "m" ∉ lengthUnits) ∧
    (∃ m, lengthConvert 1 "furlong" "m" = .error (.unsupportedUnit m)) :=
  ⟨Or.inl (by decide), unit_validation.2.2.1 1 "furlong" "m" (Or.inl (by decide))⟩

/-- C8: registering a converter whose name is already taken fails with
`DuplicateName`; `get_converter` of an unregistered name fails with
`NotFound`; a successful `register` makes the converter retrievable under
its name. -/
theorem registry_register_get :
    (∀ (reg : List RegConverter) (c : RegConverter),
      (∃ e ∈ reg, e.cname = c.cname) →
      ∃ m, registryRegister reg c = .error (.duplicateName m)) ∧
    (∀ (reg : List RegConverter) (name : String),
      (∀ e ∈ reg, e.cname ≠ name) →
      ∃ m, registryGetConverter reg name = .error (.notFound m)) ∧
    (∀ (reg : List RegConverter) (c : RegConverter)
        (reg' : List RegConverter),
      registryRegister reg c = .ok reg' →
      registryGetConverter reg' c.cname = .ok c) := by
  refine ⟨?_, ?_, ?_⟩
  · intro reg c h
    have hfind : (reg.find? (fun e => e.cname == c.cname)).isSome := by
      rw [List.find?_isSome]
      obtain ⟨e, he, hname⟩ := h
      exact ⟨e, he, by simp [hname]⟩
    exact ⟨"Converter '" ++ c.cname ++ "' is already registered",
      by simp [registryRegister, hfind]⟩
  · intro reg name h
    have hfind : reg.find? (fun e => e.cname == name) = none := by
      rw [List.find?_eq_none]
      intro e he
      simp [h e he]
    exact ⟨"No converter named '" ++ name ++ "' is registered",
      by simp [registryGetConverter, hfind]⟩
  · intro reg c reg' h
    have hfind : reg.find? (fun e => e.cname == c.cname) = none := by
      by_contra hne
      have : (reg.find? (fun e => e.cname == c.cname)).isSome := by
        cases hf : reg.find? (fun e => e.cname == c.cname) with
        | none => exact absurd hf hne
        | some _ => simp
      simp [registryRegister, this] at h
    have hreg' : reg' = reg ++ [c] := by
      simp [registryRegister, hfind] at h
      exact h.symm
    subst hreg'
    simp [registryGetConverter, List.find?_append, hfind, List.find?]

/-- Witness for C8 at concrete inputs. -/
theorem registry_register_get_witness :
    (∃ e ∈ [RegConverter.mk "Length" 0], e.cname = (RegConverter.mk "Length" 1).cname) ∧
    ∃ m, registryRegister [RegConverter.mk "Length" 0] (RegConverter.mk "Length" 1) =
      .error (.duplicateName m) :=
  ⟨⟨RegConverter.mk "Length" 0, by simp, rfl⟩,
   registry_register_get.1 [RegConverter.mk "Length" 0] (RegConverter.mk "Length" 1)
     ⟨RegConverter.mk "Length" 0, by simp, rfl⟩⟩

/-- C3: battery conversions with distinct units and positive voltage:
charge↔charge via mAh (1 Ah = 1000 mAh), energy↔energy via Wh
(1 kWh = 1000 Wh), charge→energy via Ah × voltage = Wh, energy→charge via
Wh / voltage = Ah; the default voltage 3.7 applies when omitted, so
`convert(1000,"mAh","Wh") = 3.7` and `convert(30,"Wh","Ah",12) = 2.5`. -/
theorem battery_formulas : ∀ (v w : ℚ), 0 < w →
    batteryConvert v "mAh" "Ah" w = .ok (v / 1000) ∧
    batteryConvert v "Ah" "mAh" w = .ok (v * 1000) ∧
    batteryConvert v "Wh" "kWh" w = .ok (v / 1000) ∧
    batteryConvert v "kWh" "Wh" w = .ok (v * 1000) ∧
    batteryConvert v "mAh" "Wh" w = .ok (v / 1000 * w) ∧
    batteryConvert v "mAh" "kWh" w = .ok (v / 1000 * w / 1000) ∧
    batteryConvert v "Ah" "Wh" w = .ok (v * w) ∧
    batteryConvert v "Ah" "kWh" w = .ok (v * w / 1000) ∧
    batteryConvert v "Wh" "Ah" w = .ok (v / w) ∧
    batteryConvert v "Wh" "mAh" w = .ok (v / w * 1000) ∧
    batteryConvert v "kWh" "Ah" w = .ok (v * 1000 / w) ∧
    batteryConvert v "kWh" "mAh" w = .ok (v * 1000 / w * 1000) ∧
    batteryConvert 1000 "mAh" "Wh" = .ok (37/10) ∧
    batteryConvert 30 "Wh" "Ah" 12 = .ok (5/2) := by
  intro v w hw
  have hw' : ¬ (w ≤ 0) := not_le.mpr hw
  refine ⟨?_, ?_, ?_, ?_, ?_, ?_, ?_, ?_, ?_, ?_, ?_, ?_, ?_, ?_⟩
  all_goals try (simp [batteryConvert, validate_unit, convert_with_params,
    convert_charge, convert_energy, convert_charge_to_energy,
    convert_energy_to_charge, to_mah, from_mah, to_ah, from_ah, to_wh,
    from_wh, chargeUnits, energyUnits, batteryUnits, hw']; done)
  all_goals norm_num [batteryConvert, validate_unit, convert_with_params,
    convert_charge, convert_energy, convert_charge_to_energy,
    convert_energy_to_charge, to_mah, from_mah, to_ah, from_ah, to_wh,
    from_wh, chargeUnits, energyUnits, batteryUnits]
  all_goals simp

/-- Witness for C3 at concrete inputs. -/
theorem battery_formulas_witness :
    (0 : ℚ) < 2 ∧ batteryConvert 6 "Ah" "Wh" 2 = .ok (6 * 2) :=
  ⟨by norm_num, (battery_formulas 6 2 (by norm_num)).2.2.2.2.2.2.1⟩

/-- C4: with a non-identity unit pair, a voltage ≤ 0 is rejected with
`InvalidParameter`: `_convert_with_params` rejects it for every unit pair,
and in particular `convert(x, "mAh", "Wh", voltage=w)` fails for every `x`
and every `w ≤ 0`. -/
theorem battery_nonpositive_voltage : ∀ (x w : ℚ), w ≤ 0 →
    (∀ f t : String, convert_with_params x f t w =
      .error (.invalidParameter
        ("Voltage must be positive, got " ++ toString w ++ "V"))) ∧
    batteryConvert x "mAh" "Wh" w =
      .error (.invalidParameter
        ("Voltage must be positive, got " ++ toString w ++ "V")) := by
  intro x w hw
  constructor
  · intro f t
    simp [convert_with_params, hw]
  · simp [batteryConvert, validate_unit, convert_with_params, batteryUnits,
      chargeUnits, energyUnits, hw]

/-- Witness for C4 at concrete inputs. -/
theorem battery_nonpositive_voltage_witness :
    (0 : ℚ) ≤ 0 ∧ batteryConvert 1 "mAh" "Wh" 0 =
      .error (.invalidParameter
        ("Voltage must be positive, got " ++ toString (0 : ℚ) ++ "V")) :=
  ⟨le_refl 0, (battery_nonpositive_voltage 1 0 (le_refl 0)).2⟩

/-- C9: with supported units and voltage ≤ 0, the battery `convert` raises
`InvalidParameter` exactly when the units differ: the identity
short-circuit precedes parameter validation, while every non-identity pair
(including same-family pairs whose formula never uses the voltage)
validates the voltage first. -/
theorem battery_voltage_iff_distinct :
    ∀ (v w : ℚ) (f t : String), f ∈ batteryUnits → t ∈ batteryUnits →
    w ≤ 0 →
    (f = t → batteryConvert v f t w = .ok v) ∧
    (f ≠ t → batteryConvert v f t w =
      .error (.invalidParameter
        ("Voltage must be positive, got " ++ toString w ++ "V"))) := by
  intro v w f t hf ht hw
  constructor
  · intro heq
    subst heq
    simp [batteryConvert, validate_unit, hf]
  · intro hne
    simp [batteryConvert, validate_unit, convert_with_params, hf, ht, hne, hw]

/-- Witness for C9 at concrete inputs: a same-family non-identity pair with
voltage 0 is rejected even though its formula never uses the voltage. -/
theorem battery_voltage_iff_distinct_witness :
    ("mAh" ∈ batteryUnits ∧ "Ah" ∈ batteryUnits ∧ (0 : ℚ) ≤ 0 ∧
      ("mAh" : String) ≠ "Ah") ∧
    batteryConvert 7 "mAh" "Ah" 0 =
      .error (.invalidParameter
        ("Voltage must be positive, got " ++ toString (0 : ℚ) ++ "V")) :=
  ⟨⟨by decide, by decide, le_refl 0, by decide⟩,
   (battery_voltage_iff_distinct 7 0 "mAh" "Ah" (by decide) (by decide)
     (le_refl 0)).2 (by decide)⟩

/-- C1: a conversion call is served from the shared cached rate table
whenever the cache is populated and `now - timestamp < 600` (no fetch
occurs); when the cache is absent or at least 600 seconds old, the call
fetches, and a successful fetch replaces the whole rate table and the
fetch timestamp together in one step. -/
theorem cache_ttl_policy :
    ∀ (st : CurrencyCache) (now : ℚ) (resp : FetchResponse),
    (cacheHit st now = true ↔ ∃ rates ts, st.cached_rates = some rates ∧
      st.cache_timestamp = some ts ∧ now - ts < CACHE_DURATION) ∧
    (∀ rates ts, st.cached_rates = some rates → st.cache_timestamp = some ts →
      now - ts < CACHE_DURATION →
      getExchangeRates st now resp = (.ok rates, st, false)) ∧
    (cacheHit st now = false → (getExchangeRates st now resp).2.2 = true) ∧
    (∀ result rates, cacheHit st now = false → resp = .payload result rates →
      result = "success" →
      currencyCodes.filter (fun c => (rates.lookup c).isNone) = [] →
      getExchangeRates st now resp =
        (.ok (buildRates rates), ⟨some (buildRates rates), some now⟩, true)) := by
  intro st now resp
  obtain ⟨cr, cts⟩ := st
  refine ⟨?_, ?_, ?_, ?_⟩
  · cases cr <;> cases cts <;> simp [cacheHit]
  · intro rates ts h1 h2 hlt
    simp only at h1 h2
    subst h1
    subst h2
    simp [getExchangeRates, hlt]
  · intro hmiss
    cases cr with
    | none => cases cts <;> simp [getExchangeRates]
    | some rates =>
      cases cts with
      | none => simp [getExchangeRates]
      | some ts =>
        simp only [cacheHit, decide_eq_false_iff_not] at hmiss
        simp [getExchangeRates, hmiss]
  · intro result rates hmiss hresp hres hfilter
    subst hresp
    subst hres
    cases cr <;> cases cts <;>
      simp_all [cacheHit, getExchangeRates, fetchRates, hfilter]

/-- Witness for C1 at concrete inputs. -/
theorem cache_ttl_policy_witness :
    ((CurrencyCache.mk (some [("USD", 1)]) (some 0)).cached_rates =
        some [("USD", 1)] ∧
      (CurrencyCache.mk (some [("USD", 1)]) (some 0)).cache_timestamp =
        some 0 ∧ (10 : ℚ) - 0 < CACHE_DURATION) ∧
    getExchangeRates (CurrencyCache.mk (some [("USD", 1)]) (some 0)) 10
        .timeout =
      (.ok [("USD", 1)], CurrencyCache.mk (some [("USD", 1)]) (some 0),
        false) :=
  ⟨⟨rfl, rfl, by norm_num [CACHE_DURATION]⟩,
   (cache_ttl_policy (CurrencyCache.mk (some [("USD", 1)]) (some 0)) 10
       .timeout).2.1 [("USD", 1)] 0 rfl rfl (by norm_num [CACHE_DURATION])⟩

/-- C2: when a fetch is issued, every failing response — timeout,
connection error, transport error, malformed payload, non-success status,
or any configured currency code missing from the rates — yields
`ExchangeRateUnavailable` and leaves the cache state exactly as it was;
a single missing code already makes the fetch fail. -/
theorem fetch_failure_preserves_cache :
    (∀ (st : CurrencyCache) (now : ℚ) (resp : FetchResponse),
      cacheHit st now = false → fetchFails resp = true →
      ∃ m, getExchangeRates st now resp =
        (.error (.exchangeRateUnavailable m), st, true)) ∧
    (∀ (result : String) (rates : List (String × ℚ)) (c : String),
      c ∈ currencyCodes → rates.lookup c = none →
      fetchFails (.payload result rates) = true) := by
  constructor
  · intro st now resp hmiss hfail
    have hfetch : ∃ m, fetchRates st now resp =
        (.error (.exchangeRateUnavailable m), st) := by
      cases resp with
      | timeout => exact ⟨_, rfl⟩
      | connectionError => exact ⟨_, rfl⟩
      | requestError m => exact ⟨_, rfl⟩
      | malformed m => exact ⟨_, rfl⟩
      | payload result rates =>
        by_cases hres : result = "success"
        · subst hres
          have hfil : currencyCodes.filter
              (fun c => (rates.lookup c).isNone) ≠ [] := by
            simp only [fetchFails] at hfail
            rw [Bool.or_eq_true] at hfail
            rcases hfail with h | h
            · simp at h
            · exact of_decide_eq_true h
          exact ⟨"解析汇率数据失败: API响应中未找到以下货币汇率: " ++
              String.intercalate ", "
                (currencyCodes.filter (fun c => (rates.lookup c).isNone)),
            by simp [fetchRates, hfil]⟩
        · exact ⟨"解析汇率数据失败: API返回状态异常",
            by simp [fetchRates, hres]⟩
    obtain ⟨m, hm⟩ := hfetch
    refine ⟨m, ?_⟩
    obtain ⟨cr, cts⟩ := st
    cases cr <;> cases cts <;> simp_all [cacheHit, getExchangeRates]
  · intro result rates c hc hnone
    have hfil : currencyCodes.filter (fun c => (rates.lookup c).isNone) ≠ [] := by
      intro hfil
      rw [List.filter_eq_nil_iff] at hfil
      exact hfil c hc (by simp [hnone])
    simp [fetchFails, hfil]

/-- Witness for C2 at concrete inputs: a fresh cache and a success-status
payload that misses the configured code CNY. -/
theorem fetch_failure_preserves_cache_witness :
    (cacheHit (CurrencyCache.mk none none) 0 = false ∧
      fetchFails (.payload "success" [("USD", 1)]) = true) ∧
    ∃ m, getExchangeRates (CurrencyCache.mk none none) 0
        (.payload "success" [("USD", 1)]) =
      (.error (.exchangeRateUnavailable m), CurrencyCache.mk none none,
        true) :=
  ⟨⟨rfl, by decide⟩,
   fetch_failure_preserves_cache.1 (CurrencyCache.mk none none) 0
     (.payload "success" [("USD", 1)]) rfl (by decide)⟩

theorem buildRates_keys (rates : List (String × ℚ)) :
    (buildRates rates).map Prod.fst = currencyCodes := by
  simp only [buildRates, List.map_map]
  have : (Prod.fst ∘ fun c : String => (c, ((rates.lookup c).getD 0 : ℚ))) = id := by
    funext c
    rfl
  rw [this, List.map_id]

theorem parse_unit_mem : ∀ u ∈ currencyUnits, parse_unit u ∈ currencyCodes := by
  decide

theorem dictGet_ok_of_keys (rates : List (String × ℚ)) (c : String)
    (hk : rates.map Prod.fst = currencyCodes) (hc : c ∈ currencyCodes) :
    ∃ r, dictGet rates c = .ok r := by
  have hmem : c ∈ rates.map Prod.fst := by rw [hk]; exact hc
  obtain ⟨p, hp, hpc⟩ := List.mem_map.mp hmem
  have hsome : (rates.lookup c).isSome := by
    rw [List.lookup_isSome_iff]
    exact ⟨p, hp, by simp [hpc]⟩
  cases hl : rates.lookup c with
  | none => rw [hl] at hsome; simp at hsome
  | some r => exact ⟨r, by simp [dictGet, hl]⟩

theorem fetchRates_spec (st : CurrencyCache) (now : ℚ)
    (resp : FetchResponse) :
    (∃ m, fetchRates st now resp =
      (.error (.exchangeRateUnavailable m), st)) ∨
    (∃ rates, fetchRates st now resp =
      (.ok (buildRates rates),
        ⟨some (buildRates rates), some now⟩)) := by
  cases resp with
  | timeout => exact Or.inl ⟨_, rfl⟩
  | connectionError => exact Or.inl ⟨_, rfl⟩
  | requestError m => exact Or.inl ⟨_, rfl⟩
  | malformed m => exact Or.inl ⟨_, rfl⟩
  | payload result rates =>
    by_cases hres : result = "success"
    · by_cases hfil :
          currencyCodes.filter (fun c => (rates.lookup c).isNone) = []
      · exact Or.inr ⟨rates, by simp [fetchRates, hres, hfil]⟩
      · exact Or.inl ⟨"解析汇率数据失败: API响应中未找到以下货币汇率: " ++
          String.intercalate ", "
            (currencyCodes.filter (fun c => (rates.lookup c).isNone)),
          by simp [fetchRates, hres, hfil]⟩
    · exact Or.inl ⟨"解析汇率数据失败: API返回状态异常",
        by simp [fetchRates, hres]⟩

theorem getExchangeRates_spec (st : CurrencyCache) (now : ℚ)
    (resp : FetchResponse) :
    (∃ rates, st.cached_rates = some rates ∧
      getExchangeRates st now resp = (.ok rates, st, false)) ∨
    (∃ m, getExchangeRates st now resp =
      (.error (.exchangeRateUnavailable m), st, true)) ∨
    (∃ rates, getExchangeRates st now resp =
      (.ok (buildRates rates),
        ⟨some (buildRates rates), some now⟩, true)) := by
  obtain ⟨cr, cts⟩ := st
  have hfetch := fetchRates_spec ⟨cr, cts⟩ now resp
  cases cr with
  | some rates =>
    cases cts with
    | some ts =>
      by_cases hlt : now - ts < CACHE_DURATION
      · exact Or.inl ⟨rates, rfl, by simp [getExchangeRates, hlt]⟩
      · rcases hfetch with ⟨m, hm⟩ | ⟨r, hr⟩
        · exact Or.inr (Or.inl ⟨m, by simp [getExchangeRates, hlt, hm]⟩)
        · exact Or.inr (Or.inr ⟨r, by simp [getExchangeRates, hlt, hr]⟩)
    | none =>
      rcases hfetch with ⟨m, hm⟩ | ⟨r, hr⟩
      · exact Or.inr (Or.inl ⟨m, by simp [getExchangeRates, hm]⟩)
      · exact Or.inr (Or.inr ⟨r, by simp [getExchangeRates, hr]⟩)
  | none =>
    cases cts with
    | some ts =>
      rcases hfetch with ⟨m, hm⟩ | ⟨r, hr⟩
      · exact Or.inr (Or.inl ⟨m, by simp [getExchangeRates, hm]⟩)
      · exact Or.inr (Or.inr ⟨r, by simp [getExchangeRates, hr]⟩)
    | none =>
      rcases hfetch with ⟨m, hm⟩ | ⟨r, hr⟩
      · exact Or.inr (Or.inl ⟨m, by simp [getExchangeRates, hm]⟩)
      · exact Or.inr (Or.inr ⟨r, by simp [getExchangeRates, hr]⟩)

theorem currencyConvert_cases (st : CurrencyCache) (now : ℚ)
    (resp : FetchResponse) (v : ℚ) (f t : String)
    (hf : f ∈ currencyUnits) (ht : t ∈ currencyUnits) (hft : f ≠ t)
    (hinv : cacheKeysInv st) :
    (∃ (q : ℚ) (st' : CurrencyCache),
      currencyConvert st now resp v f t = (.ok q, st') ∧ cacheKeysInv st') ∨
    (∃ (m : String) (st' : CurrencyCache),
      currencyConvert st now resp v f t =
        (.error (.exchangeRateUnavailable m), st') ∧ cacheKeysInv st') := by
  rcases getExchangeRates_spec st now resp with ⟨r, hcr, hg⟩ | ⟨m, hg⟩ | ⟨r, hg⟩
  · have hk : r.map Prod.fst = currencyCodes := hinv r hcr
    obtain ⟨rf, hrf⟩ :=
      dictGet_ok_of_keys r (parse_unit f) hk (parse_unit_mem f hf)
    obtain ⟨rt, hrt⟩ :=
      dictGet_ok_of_keys r (parse_unit t) hk (parse_unit_mem t ht)
    left
    by_cases hfb : parse_unit f = BASE_CURRENCY <;>
      by_cases htb : parse_unit t = BASE_CURRENCY <;>
      [skip; skip; skip; skip] <;>
      (simp [currencyConvert, validate_unit, hf, ht, hft, hg, hrf, hrt,
        hfb, htb]
       exact ⟨_, _, ⟨rfl, rfl⟩, hinv⟩)
  · right
    refine ⟨m, st, ?_, hinv⟩
    simp [currencyConvert, validate_unit, hf, ht, hft, hg]
  · have hk : (buildRates r).map Prod.fst = currencyCodes := buildRates_keys r
    have hinv' : cacheKeysInv ⟨some (buildRates r), some now⟩ := by
      intro r' hr'
      injection hr' with h
      rw [← h]
      exact buildRates_keys r
    obtain ⟨rf, hrf⟩ :=
      dictGet_ok_of_keys (buildRates r) (parse_unit f) hk (parse_unit_mem f hf)
    obtain ⟨rt, hrt⟩ :=
      dictGet_ok_of_keys (buildRates r) (parse_unit t) hk (parse_unit_mem t ht)
    left
    by_cases hfb : parse_unit f = BASE_CURRENCY <;>
      by_cases htb : parse_unit t = BASE_CURRENCY <;>
      [skip; skip; skip; skip] <;>
      (simp [currencyConvert, validate_unit, hf, ht, hft, hg, hrf, hrt,
        hfb, htb]
       exact ⟨_, _, ⟨rfl, rfl⟩, hinv'⟩)

/-- C10: whenever the shared rate table is populated its key list is
exactly the configured currency-code list; both `_get_exchange_rates` and
`convert` preserve this invariant, and for validated units `convert` can
never fail with a missing-key (`KeyError`) lookup. -/
theorem currency_rates_keys :
    (∀ (st : CurrencyCache) (now : ℚ) (resp : FetchResponse),
      cacheKeysInv st → cacheKeysInv (getExchangeRates st now resp).2.1) ∧
    (∀ (st : CurrencyCache) (now : ℚ) (resp : FetchResponse) (v : ℚ)
        (f t : String), cacheKeysInv st →
      cacheKeysInv (currencyConvert st now resp v f t).2) ∧
    (∀ (st : CurrencyCache) (now : ℚ) (resp : FetchResponse) (v : ℚ)
        (f t : String), cacheKeysInv st →
      f ∈ currencyUnits → t ∈ currencyUnits →
      ∀ m, (currencyConvert st now resp v f t).1 ≠
        .error (.keyError m)) := by
  refine ⟨?_, ?_, ?_⟩
  · intro st now resp hinv
    rcases getExchangeRates_spec st now resp with
      ⟨r, hcr, hg⟩ | ⟨m, hg⟩ | ⟨r, hg⟩ <;> rw [hg]
    · exact hinv
    · exact hinv
    · intro r' hr'
      injection hr' with h
      rw [← h]
      exact buildRates_keys r
  · intro st now resp v f t hinv
    by_cases hf : f ∈ currencyUnits
    · by_cases ht : t ∈ currencyUnits
      · by_cases hft : f = t
        · subst hft
          simpa [currencyConvert, validate_unit, hf] using hinv
        · rcases currencyConvert_cases st now resp v f t hf ht hft hinv with
            ⟨q, st', heq, hinv'⟩ | ⟨m, st', heq, hinv'⟩ <;> rw [heq] <;>
            exact hinv'
      · simpa [currencyConvert, validate_unit, hf, ht] using hinv
    · simpa [currencyConvert, validate_unit, hf] using hinv
  · intro st now resp v f t hinv hf ht m
    by_cases hft : f = t
    · subst hft
      simp [currencyConvert, validate_unit, hf]
    · rcases currencyConvert_cases st now resp v f t hf ht hft hinv with
        ⟨q, st', heq, h2⟩ | ⟨m', st', heq, h2⟩ <;> rw [heq] <;> simp

/-- Witness for C10 at concrete inputs. -/
theorem currency_rates_keys_witness :
    (cacheKeysInv (CurrencyCache.mk none none) ∧
      "CNY(人民币)" ∈ currencyUnits ∧ "USD(美元)" ∈ currencyUnits) ∧
    ∀ m, (currencyConvert (CurrencyCache.mk none none) 0
        (.payload "success" (currencyCodes.map (fun c => (c, 1)))) 100
        "CNY(人民币)" "USD(美元)").1 ≠ .error (.keyError m) :=
  by
  have hinv : cacheKeysInv (CurrencyCache.mk none none) := by
    intro r hr
    cases hr
  exact ⟨⟨hinv, by decide, by decide⟩,
    currency_rates_keys.2.2 (CurrencyCache.mk none none) 0
      (.payload "success" (currencyCodes.map (fun c => (c, 1)))) 100
      "CNY(人民币)" "USD(美元)" hinv (by decide) (by decide)⟩
